import Mathlib

/-!
A shallow embedding of the CashPilot AI reference implementation, covering:

* the risk-scoring arithmetic of `src/agents/risk_guardian/risk_models.py`
  (`RiskAnalyzer`), including the dynamically-typed `validate_transaction`;
* the risk agent's `assess_strategy` (`src/agents/risk_guardian/agent.py`)
  and the simplified risk agent's success payload
  (`src/agents/simple_agents.py`);
* the MIP-003 job lifecycle of `src/api/routes/mip003.py`: `start_job`,
  `cancel_job` and the background task `poll_payment_status`.

Python `float` arithmetic is modelled over `ℚ` (none of the verified
properties hinges on binary floating-point rounding); Python's `round(x, 1)`
(banker's rounding) is modelled exactly by `round1`.  Dict fields that the
code reads with `.get(key, default)` are modelled as `Option` fields.
-/

namespace CashPilot

/-- Python dict lookup (`d.get(k)`), for string-keyed dict literals. -/
def alookup {α : Type} : List (String × α) → String → Option α
  | [], _ => none
  | (k, v) :: t, p => if p = k then some v else alookup t p

/-- Python `round` to an integer: round-half-to-even (banker's rounding). -/
def roundHalfEven (x : ℚ) : ℤ :=
  let f := ⌊x⌋
  let r := x - f
  if r < 1/2 then f
  else if r > 1/2 then f + 1
  else if Even f then f else f + 1

/-- Python `round(x, 1)`. -/
def round1 (x : ℚ) : ℚ := (roundHalfEven (10 * x) : ℚ) / 10

/-! ## Risk analysis (`src/agents/risk_guardian/risk_models.py`)

An allocation dict.  The code reads `protocol`, `allocation_percent`,
`risk_score` and `expected_apr` with `.get`; a missing key is `none`. -/

structure Allocation where
  protocol : Option String := none
  allocation_percent : Option ℚ := none
  risk_score : Option ℚ := none
  expected_apr : Option ℚ := none
deriving Repr, DecidableEq

/-- Reads `alloc.get("allocation_percent", 0)`. -/
def allocPct (a : Allocation) : ℚ := a.allocation_percent.getD 0

/-- Python `str.lower()` (ASCII, which covers every protocol name used);
stated structurally over the character list so concrete strings reduce. -/
def strToLower (s : String) : String := ⟨s.data.map Char.toLower⟩

/-- The table `RiskAnalyzer.protocol_risk_ratings` (set in the constructor). -/
def protocol_risk_ratings : List (String × ℚ) :=
  [("minswap", 25), ("sundaeswap", 30), ("liqwid", 35),
   ("indigo", 40), ("muesliswap", 35), ("wingriders", 30)]

/-- Embeds `RiskAnalyzer._calculate_concentration_risk`.  (The source also binds a
`max_allocation` local that it never uses; the dead binding is omitted.) -/
def _calculate_concentration_risk (allocations : List Allocation) : ℚ :=
  if allocations = [] then 0
  else
    let hhi := (allocations.map (fun a => allocPct a ^ 2)).sum
    min (hhi / 100) 100

/-- One step of the accumulation loop in `_calculate_protocol_risk`:
the pair is `(total_risk, total_weight)`. -/
def protocolRiskStep (acc : ℚ × ℚ) (a : Allocation) : ℚ × ℚ :=
  let protocol := strToLower (a.protocol.getD "")
  let weight := allocPct a / 100
  let base_risk := (alookup protocol_risk_ratings protocol).getD 50
  let position_risk := a.risk_score.getD base_risk
  (acc.1 + position_risk * weight, acc.2 + weight)

/-- Embeds `RiskAnalyzer._calculate_protocol_risk`. -/
def _calculate_protocol_risk (allocations : List Allocation) : ℚ :=
  if allocations = [] then 0
  else
    let acc := allocations.foldl protocolRiskStep (0, 0)
    if acc.2 = 0 then 0 else acc.1 / acc.2

/-- The APR step function inside `_calculate_apr_risk`'s loop. -/
def aprScore (apr : ℚ) : ℚ :=
  if apr > 100 then 80
  else if apr > 50 then 60
  else if apr > 30 then 40
  else if apr > 15 then 20
  else 10

/-- Embeds `RiskAnalyzer._calculate_apr_risk`. -/
def _calculate_apr_risk (allocations : List Allocation) : ℚ :=
  if allocations = [] then 0
  else
    let risk_scores := allocations.map (fun a => aprScore (a.expected_apr.getD 0))
    if risk_scores = [] then 0 else risk_scores.sum / risk_scores.length

/-- Embeds `RiskAnalyzer._calculate_diversification`. -/
def _calculate_diversification (allocations : List Allocation) : ℚ :=
  if allocations = [] then 0
  else
    let num_positions : ℚ := allocations.length
    let num_protocols : ℚ := (allocations.map (·.protocol)).dedup.length
    let balance_score : ℚ :=
      if allocations.length = 1 then 0
      else
        let ideal_allocation := 100 / num_positions
        let variance :=
          (allocations.map (fun a => (allocPct a - ideal_allocation) ^ 2)).sum
            / num_positions
        max 0 (100 - variance)
    let diversification :=
      (num_protocols / 5) * 40 + (num_positions / 5) * 30
        + (balance_score / 100) * 30
    min diversification 100

/-- The strategy dict as read by `analyze_strategy`
(`strategy.get("recommended_allocations", [])`). -/
structure Strategy where
  recommended_allocations : Option (List Allocation) := none
deriving Repr, DecidableEq

/-- The analysis dict built by `RiskAnalyzer.analyze_strategy`
(the purely presentational `risk_breakdown` format strings are omitted). -/
structure RiskAnalysis where
  overall_risk_score : ℚ
  concentration_risk : ℚ
  protocol_risk : ℚ
  apr_risk : ℚ
  diversification_score : ℚ
  warnings : List String
  recommendations : List String
deriving Repr, DecidableEq

/-- Embeds `RiskAnalyzer.analyze_strategy`. -/
def analyze_strategy (strategy : Strategy) : RiskAnalysis :=
  let allocations := strategy.recommended_allocations.getD []
  let concentration_risk := _calculate_concentration_risk allocations
  let protocol_risk := _calculate_protocol_risk allocations
  let apr_risk := _calculate_apr_risk allocations
  let diversification_score := _calculate_diversification allocations
  let overall_risk :=
    concentration_risk * (3/10) + protocol_risk * (4/10) + apr_risk * (3/10)
  let warnings :=
    (if concentration_risk > 60 then
      ["High concentration risk: Portfolio not well diversified"] else [])
    ++ (if protocol_risk > 50 then
      ["High protocol risk: Consider safer protocols"] else [])
    ++ (if apr_risk > 60 then
      ["Unusually high APRs detected: Possible high risk"] else [])
  let recommendations :=
    (if concentration_risk > 40 then
      ["Increase diversification across protocols"] else [])
    ++ (if overall_risk > 50 then
      ["Consider reducing risk exposure"] else [])
  { overall_risk_score := round1 overall_risk
    concentration_risk := round1 concentration_risk
    protocol_risk := round1 protocol_risk
    apr_risk := round1 apr_risk
    diversification_score := round1 diversification_score
    warnings := warnings
    recommendations := recommendations }

/-- The fields of `RiskGuardianAgent.assess_strategy`'s response relevant to
approval (agent/payment metadata fields are orthogonal and omitted). -/
structure AssessResponse where
  approved : Bool
  risk_analysis : RiskAnalysis
deriving Repr, DecidableEq

/-- Embeds `RiskGuardianAgent.assess_strategy` (`src/agents/risk_guardian/agent.py`):
`approved = risk_analysis["overall_risk_score"] <= 70`. -/
def assess_strategy (strategy : Strategy) : AssessResponse :=
  let risk_analysis := analyze_strategy strategy
  let approved := decide (risk_analysis.overall_risk_score ≤ 70)
  { approved := approved, risk_analysis := risk_analysis }

/-- The approval-relevant fields of `SimpleRiskAgent.execute`'s hard-coded
success payload (`src/agents/simple_agents.py`). -/
structure SimpleRiskSuccess where
  success : Bool
  approved : Bool
  overall_risk_score : ℚ
deriving Repr, DecidableEq

/-- The success payload returned by `SimpleRiskAgent.execute`. -/
def simpleRiskSuccessPayload : SimpleRiskSuccess :=
  { success := true, approved := true, overall_risk_score := 55/2 }

/-! ## Dynamically-typed `validate_transaction`

`RiskAnalyzer.validate_transaction` reads arbitrary JSON-shaped values, so a
non-string `protocol` or a non-numeric `amount` raises inside the `try`
body; the `except` handler then returns `{"approved": False, "risk_score":
100, "warnings": ["Validation error: ..."]}`.  Values are modelled by
`PyVal`, the body by an `Except`-returning function (`.error` = a raised
exception; the exact Python exception text is abstracted to a fixed
message). -/

inductive PyVal where
  | num (q : ℚ)
  | str (s : String)
  | pynone
deriving Repr, DecidableEq

/-- Python `v.lower()`: only strings have the attribute. -/
def pyLower : PyVal → Except String String
  | .str s => .ok (strToLower s)
  | .num _ => .error "AttributeError: lower is not an attribute of this object"
  | .pynone => .error "AttributeError: lower is not an attribute of this object"

/-- Python `v > c` against a numeric literal: comparing a non-number with a
number raises `TypeError`. -/
def pyGtNum : PyVal → ℚ → Except String Bool
  | .num q, c => .ok (decide (c < q))
  | .str _, _ => .error "TypeError: unsupported comparison between str and int"
  | .pynone, _ => .error "TypeError: unsupported comparison between NoneType and int"

/-- A transaction dict as read by `validate_transaction` (`type`, `amount`
and `protocol` are read with `.get`, so each key may be absent). -/
structure Transaction where
  type : Option PyVal := none
  amount : Option PyVal := none
  protocol : Option PyVal := none
deriving Repr, DecidableEq

/-- The validation dict `{"approved", "risk_score", "warnings"}`. -/
structure ValidationResult where
  approved : Bool
  risk_score : ℚ
  warnings : List String
deriving Repr, DecidableEq

/-- The `try` body of `RiskAnalyzer.validate_transaction`. -/
def validate_transaction_body (t : Transaction) : Except String ValidationResult := do
  let tx_type := t.type.getD (.str "")
  let amount := t.amount.getD (.num 0)
  let protocol ← pyLower (t.protocol.getD (.str ""))
  let protocol_risk := (alookup protocol_risk_ratings protocol).getD 50
  let risk1 : ℚ := 30 + protocol_risk * (1/2)
  let big ← pyGtNum amount 100000
  let (warnings, risk2) ←
    if big then
      pure (["Large transaction amount"], risk1 + 20)
    else do
      let mid ← pyGtNum amount 50000
      pure (([] : List String), if mid then risk1 + 10 else risk1)
  let risk3 :=
    if tx_type = .str "swap" ∨ tx_type = .str "add_liquidity" then risk2 + 10
    else if tx_type = .str "lending_supply" then risk2 + 15
    else risk2
  pure { approved := decide (risk3 ≤ 70), risk_score := round1 risk3,
         warnings := warnings }

/-- Embeds `RiskAnalyzer.validate_transaction`, `except` handler included. -/
def validate_transaction (t : Transaction) : ValidationResult :=
  match validate_transaction_body t with
  | .ok r => r
  | .error e =>
      { approved := false, risk_score := 100,
        warnings := ["Validation error: " ++ e] }

/-! ## MIP-003 job lifecycle (`src/api/routes/mip003.py`)

Job payloads (`input_data`, agent results) are never inspected by the
lifecycle code — they are passed through to the agent — so they are
modelled as opaque strings.  `datetime.utcnow()` timestamps are modelled as
an abstract tick counter supplied by the caller. -/

inductive JobStatus where
  | awaiting_payment
  | payment_received
  | in_progress
  | completed
  | failed
  | cancelled
deriving Repr, DecidableEq

/-- A record of `jobs_db` (the fields the lifecycle logic reads/writes). -/
structure Job where
  job_id : String
  agent_type : String
  status : JobStatus
  payment_id : String
  payment_status : String
  input_data : String
  created_at : Nat
  updated_at : Nat
  result : Option String
  error : Option String
deriving Repr, DecidableEq

/-- The in-memory job store `jobs_db`, a string-keyed dict. -/
def JobsDb := List (String × Job)

instance : DecidableEq JobsDb := by
  unfold JobsDb
  infer_instance

/-- Reads `jobs_db[job_id]` (keys are unique). -/
def dbLookup (db : JobsDb) (id : String) : Option Job := alookup db id

/-- Writes `jobs_db[job_id] = job`. -/
def dbSet (db : JobsDb) (id : String) (j : Job) : JobsDb :=
  match db with
  | [] => [(id, j)]
  | (k, v) :: t => if k = id then (id, j) :: t else (k, v) :: dbSet t id j

/-- FastAPI `HTTPException(status_code, detail)`. -/
structure HTTPError where
  status_code : Nat
  detail : String
deriving Repr, DecidableEq

/-- The enum's string value (`JobStatus` is a `str` enum). -/
def JobStatus.value : JobStatus → String
  | .awaiting_payment => "awaiting_payment"
  | .payment_received => "payment_received"
  | .in_progress => "in_progress"
  | .completed => "completed"
  | .failed => "failed"
  | .cancelled => "cancelled"

/-- The response body of `DELETE /jobs/{job_id}`. -/
structure CancelResponse where
  job_id : String
  status : String
  message : String
deriving Repr, DecidableEq

/-- Embeds `cancel_job` (`DELETE /jobs/:job_id`): 404 for an unknown job, 400 only
when the status is COMPLETED or FAILED, otherwise sets CANCELLED. -/
def cancel_job (db : JobsDb) (job_id : String) (now : Nat) :
    Except HTTPError (JobsDb × CancelResponse) :=
  match dbLookup db job_id with
  | none => .error ⟨404, "Job " ++ job_id ++ " not found"⟩
  | some job =>
      if job.status = .completed ∨ job.status = .failed then
        .error ⟨400, "Cannot cancel job in status: " ++ job.status.value⟩
      else
        .ok (dbSet db job_id { job with status := .cancelled, updated_at := now },
             ⟨job_id, "cancelled", "Job has been cancelled"⟩)

/-- Embeds `poll_payment_status`, from the point where `await asyncio.sleep(2)`
returns: `db` is the store at wake-up time, `agentOutcome` the behaviour of
`await agent.execute(input_data)` (`.ok r` = a returned result, `.error e` =
a raised exception with message `e`), `now` the tick at wake-up.  The task
unconditionally confirms payment, runs the agent, and records COMPLETED, or
FAILED with the agent's message; its only guard is a `job_id in jobs_db`
existence check. -/
def poll_payment_status (db : JobsDb) (job_id : String)
    (agentOutcome : Except String String) (now : Nat) : JobsDb :=
  match dbLookup db job_id with
  | none => db
  | some job =>
      let j1 := { job with status := JobStatus.payment_received,
                           payment_status := "confirmed", updated_at := now }
      let db1 := dbSet db job_id j1
      let j2 := { j1 with status := JobStatus.in_progress, updated_at := now + 1 }
      let db2 := dbSet db1 job_id j2
      match agentOutcome with
      | .ok r =>
          dbSet db2 job_id { j2 with status := JobStatus.completed,
                                     result := some r, updated_at := now + 2 }
      | .error e =>
          if (dbLookup db2 job_id).isSome then
            dbSet db2 job_id { j2 with status := JobStatus.failed,
                                       error := some e, updated_at := now + 2 }
          else db2

/-- The successive values written to `jobs_db[job_id]["status"]` by one run
of `poll_payment_status` after it wakes from its poll wait. -/
def pollStatusTrace (db : JobsDb) (job_id : String)
    (agentOutcome : Except String String) : List JobStatus :=
  match dbLookup db job_id with
  | none => []
  | some _ =>
      [JobStatus.payment_received, JobStatus.in_progress,
       match agentOutcome with
       | .ok _ => JobStatus.completed
       | .error _ => JobStatus.failed]

/-- One entry of `start_job`'s `agent_config` map. -/
structure AgentConfigEntry where
  agent : Option String
  price_ada : ℚ
  name : String
  wallet_address : String
deriving Repr, DecidableEq

/-- The `agent_config` dict of `start_job`; each agent slot comes from
`app.state` and is `none` when the agent is unavailable. -/
def agent_config (market_agent strategy_agent risk_agent : Option String) :
    List (String × AgentConfigEntry) :=
  [("market", ⟨market_agent, 1/100, "Market Intelligence Agent", "addr_test1market_demo"⟩),
   ("strategy", ⟨strategy_agent, 5/100, "Strategy Executor Agent", "addr_test1strategy_demo"⟩),
   ("risk", ⟨risk_agent, 2/100, "Risk Guardian Agent", "addr_test1risk_demo"⟩)]

/-- The body of `POST /start_job`. -/
structure StartJobRequest where
  agent_type : String
  input_data : String
  identifier_from_purchaser : Option String := none
deriving Repr, DecidableEq

/-- The Masumi payment request attached to a new job. -/
structure PaymentRequest where
  payment_id : String
  amount_lovelace : ℤ
  recipient_address : String
deriving Repr, DecidableEq

/-- The response body of `POST /start_job`. -/
structure StartJobResponse where
  job_id : String
  status : JobStatus
  payment_request : PaymentRequest
  created_at : Nat
deriving Repr, DecidableEq

/-- Embeds `start_job` (`POST /start_job`): validates `agent_type` against the
closed config map (400), then agent availability (503), and only then
persists the new job and schedules payment polling.  The freshly generated
`job_id`/`payment_id` and the current tick are parameters (the source draws
them from `uuid.uuid4()` and `datetime.utcnow()` before validating, but on
the error paths they are discarded unused).  Returns the store after the
request together with the HTTP outcome. -/
def start_job (market_agent strategy_agent risk_agent : Option String)
    (db : JobsDb) (req : StartJobRequest) (job_id payment_id : String)
    (now : Nat) : JobsDb × Except HTTPError StartJobResponse :=
  let cfg := agent_config market_agent strategy_agent risk_agent
  match alookup cfg req.agent_type with
  | none =>
      (db, .error ⟨400, "Invalid agent_type. Must be one of: market, strategy, risk"⟩)
  | some config =>
      match config.agent with
      | none => (db, .error ⟨503, config.name ++ " is not available"⟩)
      | some _ =>
          let amount_lovelace : ℤ := ⌊config.price_ada * 1000000⌋
          let payment_request : PaymentRequest :=
            ⟨payment_id, amount_lovelace, config.wallet_address⟩
          let job : Job :=
            { job_id := job_id, agent_type := req.agent_type,
              status := JobStatus.awaiting_payment, payment_id := payment_id,
              payment_status := "awaiting", input_data := req.input_data,
              created_at := now, updated_at := now, result := none, error := none }
          (dbSet db job_id job,
           .ok ⟨job_id, JobStatus.awaiting_payment, payment_request, now⟩)

/-! ## Spec-side formulations and concrete inputs -/

/-- Spec wording of `concentration_risk`: the Herfindahl-Hirschman Index of
allocation percentages (sum of squared percentages) divided by 100, clamped
to 100, with empty input mapping to 0. -/
def concentrationSpec (l : List Allocation) : ℚ :=
  if l = [] then 0
  else min ((l.map (fun a => allocPct a ^ 2)).sum / 100) 100

/-- Spec wording of the per-protocol base-rate table (the table set in the
analyzer's constructor, with 50 for protocols outside it). -/
def baseRateSpec (p : String) : ℚ :=
  if p = "minswap" then 25
  else if p = "sundaeswap" then 30
  else if p = "liqwid" then 35
  else if p = "indigo" then 40
  else if p = "muesliswap" then 35
  else if p = "wingriders" then 30
  else 50

/-- An allocation's risk score, falling back to the base-rate table when
`risk_score` is absent. -/
def positionRiskSpec (a : Allocation) : ℚ :=
  a.risk_score.getD (baseRateSpec (strToLower (a.protocol.getD "")))

/-- Total weight: the sum of `allocation_percent / 100`. -/
def totalWeightSpec (l : List Allocation) : ℚ :=
  (l.map (fun a => allocPct a / 100)).sum

/-- Spec wording of `protocol_risk`: the weight-averaged position risk, and
0 when the total weight is 0 (in particular on the empty list). -/
def protocolRiskSpec (l : List Allocation) : ℚ :=
  if totalWeightSpec l = 0 then 0
  else (l.map (fun a => positionRiskSpec a * (allocPct a / 100))).sum / totalWeightSpec l

/-- The diversification score of `n` equal-size positions in `n` distinct
protocols: the balance term is 100 (variance 0) except for `n = 1`, where
the code pins it to 0. -/
def equalSpreadScore (n : ℕ) : ℚ :=
  min (((n : ℚ) / 5) * 40 + ((n : ℚ) / 5) * 30 +
    ((if n = 1 then (0 : ℚ) else 100) / 100) * 30) 100

/-- A single position holding 100% of the portfolio. -/
def singleFull : List Allocation :=
  [{ protocol := some "minswap", allocation_percent := some 100 }]

/-- Five equal 20% positions in five distinct protocols. -/
def fiveTwenty : List Allocation :=
  [{ protocol := some "minswap", allocation_percent := some 20 },
   { protocol := some "sundaeswap", allocation_percent := some 20 },
   { protocol := some "liqwid", allocation_percent := some 20 },
   { protocol := some "indigo", allocation_percent := some 20 },
   { protocol := some "muesliswap", allocation_percent := some 20 }]

/-- Six equal positions (100/6 % each) in six distinct protocols. -/
def sixEqual : List Allocation :=
  [{ protocol := some "minswap", allocation_percent := some (50/3) },
   { protocol := some "sundaeswap", allocation_percent := some (50/3) },
   { protocol := some "liqwid", allocation_percent := some (50/3) },
   { protocol := some "indigo", allocation_percent := some (50/3) },
   { protocol := some "muesliswap", allocation_percent := some (50/3) },
   { protocol := some "wingriders", allocation_percent := some (50/3) }]

/-- A job sitting in AWAITING_PAYMENT. -/
def awaitingJob : Job :=
  { job_id := "job-1", agent_type := "risk", status := JobStatus.awaiting_payment,
    payment_id := "pay-1", payment_status := "awaiting", input_data := "in",
    created_at := 0, updated_at := 0, result := none, error := none }

/-- A job whose status has been set to CANCELLED by `cancel_job` while its
monitoring task was in its poll wait. -/
def cancelledJob : Job :=
  { job_id := "job-1", agent_type := "risk", status := JobStatus.cancelled,
    payment_id := "pay-1", payment_status := "awaiting", input_data := "in",
    created_at := 0, updated_at := 1, result := none, error := none }

/-- A transaction whose `protocol` value is a number, so that
`transaction.get("protocol", "").lower()` raises. -/
def badProtocolTx : Transaction := { protocol := some (PyVal.num 5) }

/-- The `awaitingJob` record after a first successful cancel at tick 1. -/
def cancelledJobTick1 : Job :=
  { awaitingJob with status := JobStatus.cancelled, updated_at := 1 }

/-- The `awaitingJob` record after a second successful cancel at tick 2. -/
def cancelledJobTick2 : Job :=
  { awaitingJob with status := JobStatus.cancelled, updated_at := 2 }

/-! ## Helper lemmas -/

lemma sum_map_congr_const {α : Type} (l : List α) (f : α → ℚ) (c : ℚ)
    (h : ∀ a ∈ l, f a = c) : (l.map f).sum = l.length * c := by
  induction l with
  | nil => simp
  | cons a t ih =>
      rw [List.map_cons, List.sum_cons, h a (by simp),
        ih (fun b hb => h b (by simp [hb])), List.length_cons]
      push_cast
      ring

lemma concentration_fiveTwenty : _calculate_concentration_risk fiveTwenty = 20 := by
  rw [_calculate_concentration_risk, if_neg (by simp [fiveTwenty])]
  simp only [fiveTwenty, List.map_cons, List.map_nil, List.sum_cons, List.sum_nil,
    allocPct, Option.getD_some]
  norm_num

lemma alookup_ratings_getD (q : String) :
    (alookup protocol_risk_ratings q).getD 50 = baseRateSpec q := by
  simp only [protocol_risk_ratings, alookup, baseRateSpec]
  split_ifs <;> simp

lemma foldl_protocolRiskStep (l : List Allocation) (p : ℚ × ℚ) :
    l.foldl protocolRiskStep p =
      (p.1 + (l.map (fun a => positionRiskSpec a * (allocPct a / 100))).sum,
       p.2 + totalWeightSpec l) := by
  induction l generalizing p with
  | nil => simp [totalWeightSpec]
  | cons a t ih =>
      rw [List.foldl_cons, ih]
      simp only [protocolRiskStep, alookup_ratings_getD, List.map_cons, List.sum_cons,
        totalWeightSpec, positionRiskSpec]
      rw [Prod.ext_iff]
      constructor <;> ring

lemma aprScore_bounds (x : ℚ) : 10 ≤ aprScore x ∧ aprScore x ≤ 80 := by
  unfold aprScore
  split_ifs <;> norm_num

lemma diversification_equal_spread (l : List Allocation) (h0 : l ≠ [])
    (hpct : ∀ a ∈ l, allocPct a = 100 / (l.length : ℚ))
    (hdist : ((l.map (·.protocol)).dedup).length = l.length) :
    _calculate_diversification l = equalSpreadScore l.length := by
  have hvar : (l.map (fun a => (allocPct a - 100 / (l.length : ℚ)) ^ 2)).sum = 0 := by
    rw [sum_map_congr_const l _ 0 (fun a ha => by rw [hpct a ha]; ring)]
    ring
  simp only [_calculate_diversification, equalSpreadScore, if_neg h0, hdist]
  by_cases h1 : l.length = 1
  · simp only [if_pos h1, h1]
    norm_num
  · simp only [if_neg h1, hvar, zero_div]
    norm_num

lemma dbLookup_dbSet_self (db : JobsDb) (id : String) (j : Job) :
    dbLookup (dbSet db id j) id = some j := by
  induction db with
  | nil => simp [dbLookup, dbSet, alookup]
  | cons p t ih =>
      obtain ⟨k, v⟩ := p
      by_cases h : k = id
      · simp [dbSet, h, dbLookup, alookup]
      · have h2 : ¬ (id = k) := fun hh => h hh.symm
        simp only [dbSet, if_neg h, dbLookup, alookup, if_neg h2]
        simpa [dbLookup] using ih

/-! ## Claims -/

/-- C1 (the code violates the claim): a job whose status was set to
CANCELLED while its monitoring task slept is not left alone — upon waking,
`poll_payment_status` only checks that the job id still exists, so it moves
the cancelled job through PAYMENT_RECEIVED and IN_PROGRESS to COMPLETED. -/
theorem C1_cancelled_job_resurrected :
    pollStatusTrace [("job-1", cancelledJob)] "job-1" (Except.ok "result") =
      [JobStatus.payment_received, JobStatus.in_progress, JobStatus.completed] ∧
    (dbLookup (poll_payment_status [("job-1", cancelledJob)] "job-1"
        (Except.ok "result") 2) "job-1").map Job.status = some JobStatus.completed := by
  constructor <;> rfl

/-- C2 (the code violates the claim): after its (single, unconditional) poll
wait the background task always marks payment confirmed and ends in
COMPLETED, or in FAILED only with the agent's own exception message.  There
is no bounded polling budget and no timeout-specific FAILED transition in
`poll_payment_status` at all, so a never-settling payment can never drive a
job to FAILED with a timeout error. -/
theorem C2_no_timeout_transition (db : JobsDb) (id : String)
    (agentOutcome : Except String String) (now : Nat) (job : Job)
    (h : dbLookup db id = some job) :
    ∃ j', dbLookup (poll_payment_status db id agentOutcome now) id = some j' ∧
      j'.payment_status = "confirmed" ∧
      (j'.status = JobStatus.completed ∨
        (j'.status = JobStatus.failed ∧
          ∃ e, agentOutcome = Except.error e ∧ j'.error = some e)) := by
  cases agentOutcome with
  | ok r =>
      simp only [poll_payment_status, h]
      exact ⟨_, dbLookup_dbSet_self _ _ _, rfl, Or.inl rfl⟩
  | error e =>
      simp only [poll_payment_status, h, dbLookup_dbSet_self, Option.isSome_some,
        if_true]
      exact ⟨_, rfl, rfl, Or.inr ⟨rfl, e, rfl, rfl⟩⟩

/-- Closed instance of `C2_no_timeout_transition` on a store holding one
AWAITING_PAYMENT job. -/
theorem C2_no_timeout_transition_witness :
    ∃ j', dbLookup (poll_payment_status [("job-1", awaitingJob)] "job-1"
        (Except.ok "result") 1) "job-1" = some j' ∧
      j'.payment_status = "confirmed" ∧
      (j'.status = JobStatus.completed ∨
        (j'.status = JobStatus.failed ∧
          ∃ e, (Except.ok "result" : Except String String) = Except.error e ∧
            j'.error = some e)) :=
  C2_no_timeout_transition [("job-1", awaitingJob)] "job-1" (Except.ok "result") 1
    awaitingJob rfl

/-- C3 (the code violates the claim): cancelling an AWAITING_PAYMENT job
succeeds and sets CANCELLED, but a second DELETE on the now-CANCELLED job
does not fail with 400 — `cancel_job` rejects only COMPLETED and FAILED, so
the second cancel succeeds again and overwrites `updated_at`. -/
theorem C3_second_cancel_succeeds :
    cancel_job [("job-1", awaitingJob)] "job-1" 1 =
      Except.ok ([("job-1", cancelledJobTick1)],
        ⟨"job-1", "cancelled", "Job has been cancelled"⟩) ∧
    cancel_job [("job-1", cancelledJobTick1)] "job-1" 2 =
      Except.ok ([("job-1", cancelledJobTick2)],
        ⟨"job-1", "cancelled", "Job has been cancelled"⟩) ∧
    ([("job-1", cancelledJobTick2)] : JobsDb) ≠ [("job-1", cancelledJobTick1)] := by
  refine ⟨rfl, rfl, ?_⟩
  decide

/-- C4: in `assess_strategy` the `approved` flag equals
`overall_risk_score ≤ 70` for every input strategy, and the simplified risk
agent's hard-coded success payload satisfies the same invariant. -/
theorem C4_approved_iff_risk_le_70 :
    (∀ s : Strategy,
      ((assess_strategy s).approved = true ↔
        (assess_strategy s).risk_analysis.overall_risk_score ≤ 70)) ∧
    (simpleRiskSuccessPayload.approved = true ↔
      simpleRiskSuccessPayload.overall_risk_score ≤ 70) := by
  refine ⟨fun s => ?_, ?_⟩
  · simp [assess_strategy]
  · simp only [simpleRiskSuccessPayload]
    norm_num

/-- C5 counterexample: five equal 20% positions have HHI 5·20² = 2000, so
`concentration_risk` returns 2000/100 = 20, not the claimed 500/100 = 5. -/
theorem C5_counterexample_five_twenty :
    _calculate_concentration_risk fiveTwenty = 20 ∧
    _calculate_concentration_risk fiveTwenty ≠ 5 := by
  refine ⟨concentration_fiveTwenty, ?_⟩
  rw [concentration_fiveTwenty]
  norm_num

/-- C5 (amended): `concentration_risk` computes HHI (the sum of squared
allocation percentages) divided by 100, clamped to 100, with empty input
mapping to 0; a single 100% position scores exactly 100, and five equal 20%
positions score exactly 20 (= 2000/100). -/
theorem C5_concentration_is_clamped_hhi :
    (∀ l, _calculate_concentration_risk l = concentrationSpec l) ∧
    _calculate_concentration_risk singleFull = 100 ∧
    _calculate_concentration_risk fiveTwenty = 20 := by
  refine ⟨fun l => rfl, ?_, concentration_fiveTwenty⟩
  rw [_calculate_concentration_risk, if_neg (by simp [singleFull])]
  simp only [singleFull, List.map_cons, List.map_nil, List.sum_cons, List.sum_nil,
    allocPct, Option.getD_some]
  norm_num

/-- C6: `_calculate_protocol_risk` is the allocation_percent/100-weighted
average of position risk scores, where an allocation without a `risk_score`
falls back to the fixed base-rate table (minswap 25, sundaeswap 30, liqwid
35, indigo 40, also muesliswap 35 and wingriders 30, and 50 for every
unknown protocol), and it returns 0 whenever the total weight is 0,
including on the empty list. -/
theorem C6_protocol_risk_weighted_average :
    ∀ l, _calculate_protocol_risk l = protocolRiskSpec l := by
  intro l
  cases l with
  | nil => simp [_calculate_protocol_risk, protocolRiskSpec, totalWeightSpec]
  | cons a t =>
      rw [_calculate_protocol_risk, if_neg (by simp), protocolRiskSpec]
      rw [foldl_protocolRiskStep]
      simp

/-- C7 (amended): the diversification score of N equal positions in N
distinct protocols is strictly increasing from N to N+1 for 1 ≤ N ≤ 4; at
N = 5 the score has already reached the 100 cap, so the step from 5 to 6
positions is not strict. -/
theorem C7_diversification_monotone (N : ℕ) (hN1 : 1 ≤ N) (hN4 : N ≤ 4)
    (lN lN1 : List Allocation)
    (hlenN : lN.length = N) (hlenN1 : lN1.length = N + 1)
    (hpctN : ∀ a ∈ lN, allocPct a = 100 / (N : ℚ))
    (hpctN1 : ∀ a ∈ lN1, allocPct a = 100 / ((N : ℚ) + 1))
    (hdistN : ((lN.map (·.protocol)).dedup).length = N)
    (hdistN1 : ((lN1.map (·.protocol)).dedup).length = N + 1) :
    _calculate_diversification lN < _calculate_diversification lN1 := by
  have h0N : lN ≠ [] := by
    intro h
    rw [h] at hlenN
    simp at hlenN
    omega
  have h0N1 : lN1 ≠ [] := by
    intro h
    rw [h] at hlenN1
    simp at hlenN1
  rw [diversification_equal_spread lN h0N
      (by rw [hlenN]; exact hpctN) (by rw [hlenN]; exact hdistN), hlenN,
    diversification_equal_spread lN1 h0N1
      (by rw [hlenN1]; push_cast; exact hpctN1) (by rw [hlenN1]; exact hdistN1), hlenN1]
  interval_cases N <;> norm_num [equalSpreadScore, min_def]

/-- C7 counterexample at N = 5: five and six equal-spread positions both
score exactly 100 (the cap), so the step from N = 5 to N = 6 is not
strict. -/
theorem C7_counterexample_cap_at_five :
    ¬ (_calculate_diversification fiveTwenty < _calculate_diversification sixEqual) := by
  have h5 : _calculate_diversification fiveTwenty = 100 := by
    rw [diversification_equal_spread fiveTwenty (by simp [fiveTwenty])
        (by intro a ha; fin_cases ha <;> simp [allocPct, fiveTwenty] <;> norm_num)
        (by decide)]
    norm_num [equalSpreadScore, fiveTwenty]
  have h6 : _calculate_diversification sixEqual = 100 := by
    rw [diversification_equal_spread sixEqual (by simp [sixEqual])
        (by intro a ha; fin_cases ha <;> simp [allocPct, sixEqual] <;> norm_num)
        (by decide)]
    norm_num [equalSpreadScore, sixEqual]
  rw [h5, h6]
  exact lt_irrefl _

/-- Closed instance of `C7_diversification_monotone` at N = 1: one 100%
position scores strictly below two equal 50% positions. -/
theorem C7_diversification_monotone_witness :
    _calculate_diversification singleFull <
      _calculate_diversification
        [{ protocol := some "minswap", allocation_percent := some 50 },
         { protocol := some "liqwid", allocation_percent := some 50 }] :=
  C7_diversification_monotone 1 (by norm_num) (by norm_num) _ _ rfl rfl
    (by intro a ha; fin_cases ha <;> simp [allocPct, singleFull])
    (by intro a ha; fin_cases ha <;> simp [allocPct] <;> norm_num)
    (by decide) (by decide)

/-- C8 (the code violates the claim): on a transaction whose `protocol` is
not a string the `try` body of `validate_transaction` raises, and the
`except` handler coerces the exception into a well-formed score payload
with `approved = false` and `risk_score = 100` — a numeric high-risk result
carrying the exception text only inside `warnings`, with no separate
computation-error channel. -/
theorem C8_exception_coerced_to_risk_score :
    validate_transaction_body badProtocolTx =
      Except.error "AttributeError: lower is not an attribute of this object" ∧
    validate_transaction badProtocolTx =
      { approved := false, risk_score := 100,
        warnings :=
          ["Validation error: AttributeError: lower is not an attribute of this object"] } := by
  constructor <;> rfl

/-- C9: `start_job` with an unknown `agent_type` returns 400 with the job
store exactly as it was (no job persisted, the pre-generated ids
discarded); with a known agent_type whose agent is unavailable it returns
503, again leaving the store unchanged. -/
theorem C9_start_job_error_paths (ma sa ra : Option String) (db : JobsDb)
    (req : StartJobRequest) (jid pid : String) (now : Nat) :
    (req.agent_type ∉ (["market", "strategy", "risk"] : List String) →
      start_job ma sa ra db req jid pid now =
        (db, Except.error ⟨400, "Invalid agent_type. Must be one of: market, strategy, risk"⟩)) ∧
    (req.agent_type = "market" → ma = none →
      start_job ma sa ra db req jid pid now =
        (db, Except.error ⟨503, "Market Intelligence Agent is not available"⟩)) ∧
    (req.agent_type = "strategy" → sa = none →
      start_job ma sa ra db req jid pid now =
        (db, Except.error ⟨503, "Strategy Executor Agent is not available"⟩)) ∧
    (req.agent_type = "risk" → ra = none →
      start_job ma sa ra db req jid pid now =
        (db, Except.error ⟨503, "Risk Guardian Agent is not available"⟩)) := by
  obtain ⟨t, idata, idp⟩ := req
  refine ⟨fun h => ?_, fun h hm => ?_, fun h hs => ?_, fun h hr => ?_⟩
  · simp only [List.mem_cons, List.not_mem_nil, or_false, not_or] at h
    obtain ⟨h1, h2, h3⟩ := h
    simp [start_job, agent_config, alookup, h1, h2, h3]
  · subst h
    subst hm
    rfl
  · subst h
    subst hs
    rfl
  · subst h
    subst hr
    rfl

/-- Closed instance of `C9_start_job_error_paths`: a "bogus" agent_type is
rejected with 400 and an unavailable market agent with 503, both leaving an
empty job store empty. -/
theorem C9_start_job_error_paths_witness :
    (start_job none (some "s") (some "r") [] ⟨"bogus", "q", none⟩ "j" "p" 0 =
      ([], Except.error ⟨400, "Invalid agent_type. Must be one of: market, strategy, risk"⟩)) ∧
    (start_job none (some "s") (some "r") [] ⟨"market", "q", none⟩ "j" "p" 0 =
      ([], Except.error ⟨503, "Market Intelligence Agent is not available"⟩)) :=
  ⟨(C9_start_job_error_paths none (some "s") (some "r") [] ⟨"bogus", "q", none⟩
      "j" "p" 0).1 (by decide),
   (C9_start_job_error_paths none (some "s") (some "r") [] ⟨"market", "q", none⟩
      "j" "p" 0).2.1 rfl rfl⟩

/-- C10: on every non-empty allocation list `_calculate_apr_risk` lands in
[10, 80]; an allocation with no `expected_apr` is scored at APR 0, the
minimum step value 10; and a non-empty list with no APR data at all scores
exactly 10 (hence contributes 10 · 0.3 = 3 points to the overall risk
score). -/
theorem C10_apr_risk_bounds :
    (∀ l : List Allocation, l ≠ [] →
        10 ≤ _calculate_apr_risk l ∧ _calculate_apr_risk l ≤ 80) ∧
    (∀ a : Allocation, a.expected_apr = none →
        aprScore (a.expected_apr.getD 0) = 10) ∧
    (∀ l : List Allocation, l ≠ [] → (∀ a ∈ l, a.expected_apr = none) →
        _calculate_apr_risk l = 10) := by
  have hlen : ∀ l : List Allocation, l ≠ [] → 0 < ((l.length : ℚ)) := by
    intro l h
    have : 0 < l.length := List.length_pos.2 h
    exact_mod_cast this
  refine ⟨fun l h => ?_, fun a h => by simp [h, aprScore]; norm_num,
    fun l h hall => ?_⟩
  · rw [_calculate_apr_risk, if_neg h, if_neg (by simpa using h), List.length_map]
    have hpos := hlen l h
    have hlow : (l.length : ℚ) * 10 ≤
        (l.map (fun a => aprScore (a.expected_apr.getD 0))).sum := by
      have := List.card_nsmul_le_sum (l.map (fun a => aprScore (a.expected_apr.getD 0))) 10
        (fun x hx => by
          obtain ⟨a, _, rfl⟩ := List.mem_map.1 hx
          exact (aprScore_bounds _).1)
      simpa [nsmul_eq_mul] using this
    have hhigh : (l.map (fun a => aprScore (a.expected_apr.getD 0))).sum ≤
        (l.length : ℚ) * 80 := by
      have := List.sum_le_card_nsmul (l.map (fun a => aprScore (a.expected_apr.getD 0))) 80
        (fun x hx => by
          obtain ⟨a, _, rfl⟩ := List.mem_map.1 hx
          exact (aprScore_bounds _).2)
      simpa [nsmul_eq_mul] using this
    constructor
    · rw [le_div_iff₀ hpos]
      simpa [mul_comm] using hlow
    · rw [div_le_iff₀ hpos]
      simpa [mul_comm] using hhigh
  · rw [_calculate_apr_risk, if_neg h, if_neg (by simpa using h), List.length_map]
    rw [sum_map_congr_const l _ 10
      (fun a ha => by simp [hall a ha, aprScore]; norm_num)]
    have hne : ((l.length : ℚ)) ≠ 0 := (hlen l h).ne'
    field_simp

/-- Closed instance of `C10_apr_risk_bounds` at the one-element list whose
allocation carries no fields at all. -/
theorem C10_apr_risk_bounds_witness :
    (10 ≤ _calculate_apr_risk [{}] ∧ _calculate_apr_risk [{}] ≤ 80) ∧
    aprScore ((Allocation.expected_apr {}).getD 0) = 10 ∧
    _calculate_apr_risk [{}] = 10 :=
  ⟨C10_apr_risk_bounds.1 [{}] (by simp),
   C10_apr_risk_bounds.2.1 {} rfl,
   C10_apr_risk_bounds.2.2 [{}] (by simp) (by simp)⟩

end CashPilot
